import Mathlib

/-!
Shallow embedding of the MCPStudy repository, covering the two source files
src/mymcp.py and src/mymcpJp.py: the ISO-8601 duration helper, the YouTube
search-and-filter routine, the Notion page-creation tool, and the Excel
NG-item filter, together with theorems settling the specification claims
about them.  External collaborators (the YouTube search and detail
endpoints, the Notion HTTP endpoint, spreadsheet input) are modelled as
explicit response values handed to the embedded functions, and every Python
exception path that the source catches is modelled as the value the handler
returns.
-/

namespace MCPStudy

/-- Lowercase one character the way Python str.lower acts on ASCII letters;
characters outside the ASCII uppercase range are unchanged, which matches
Python on the Korean and ASCII keyword data the program uses. -/
def lowerChar (c : Char) : Char :=
  if 'A' ≤ c ∧ c ≤ 'Z' then Char.ofNat (c.toNat + 32) else c

/-- Lowercase a character list. -/
def lowerChars (cs : List Char) : List Char := cs.map lowerChar

/-- Whether the first list is an initial segment of the second. -/
def isPrefixChars : List Char → List Char → Bool
  | [], _ => true
  | _ :: _, [] => false
  | a :: as, b :: bs => a == b && isPrefixChars as bs

/-- Whether the needle occurs contiguously inside the haystack; this is the
Python substring test used as keyword in title. -/
def containsSub (needle : List Char) : List Char → Bool
  | [] => isPrefixChars needle []
  | c :: rest => isPrefixChars needle (c :: rest) || containsSub needle rest

/-- Numeric value of a digit run. -/
def digitsVal (ds : List Char) : Nat :=
  ds.foldl (fun a c => a * 10 + (c.toNat - 48)) 0

/-- Maximal digit run at the head of the input, with the remainder. -/
def takeDigits : List Char → List Char × List Char
  | [] => ([], [])
  | c :: rest =>
    if c.isDigit then
      let p := takeDigits rest
      (c :: p.1, p.2)
    else ([], c :: rest)

/-- One optional numeric group of the duration pattern: a nonempty digit run
followed by the given unit letter.  If the unit letter does not follow the
digits, the group matches empty and consumes nothing, which is exactly how
the optional regex groups behave on this pattern. -/
def numGroup (letter : Char) (cs : List Char) : Option Nat × List Char :=
  match takeDigits cs with
  | ([], _) => (none, cs)
  | (d :: ds, rest) =>
    match rest with
    | [] => (none, cs)
    | c :: rest2 =>
      if c == letter then (some (digitsVal (d :: ds)), rest2) else (none, cs)

/-- Matching engine shared by the source regex and the specification grammar:
letter P, an optional days group, letter T, then optional hour, minute and
second groups.  Returns the four captured components together with the
unconsumed remainder of the input, or none when the mandatory letters are
missing. -/
def rxDurationCore (cs : List Char) :
    Option ((Option Nat × Option Nat × Option Nat × Option Nat) × List Char) :=
  match cs with
  | 'P' :: cs1 =>
    let dg := numGroup 'D' cs1
    match dg.2 with
    | 'T' :: cs3 =>
      let hg := numGroup 'H' cs3
      let mg := numGroup 'M' hg.2
      let sg := numGroup 'S' mg.2
      some ((dg.1, hg.1, mg.1, sg.1), sg.2)
    | _ => none
  | _ => none

/-- Embedding of parse_iso8601_duration from src/mymcp.py.  Empty input and
input starting with P0 return 0; otherwise the relaxed regex is matched
against an initial segment of the input (re.match semantics) and the captured
components are summed with the day, hour, minute and second weights that the
timedelta arithmetic of the source computes. -/
def parse_iso8601_duration (s : String) : Nat :=
  if s.data = [] then 0
  else if isPrefixChars ['P', '0'] s.data then 0
  else
    match rxDurationCore s.data with
    | none => 0
    | some ((d, h, m, sec), _) =>
      d.getD 0 * 86400 + h.getD 0 * 3600 + m.getD 0 * 60 + sec.getD 0

/-- The duration grammar as the specification words it: the whole string must
have the shape P[nD]T[nH][nM][nS], each numeric component optional and
defaulting to 0.  Returns the day, hour, minute and second components of a
full match.  This definition follows the specification text and is compared
against the source embedding parse_iso8601_duration. -/
def specDurationComponents (s : String) : Option (Nat × Nat × Nat × Nat) :=
  match rxDurationCore s.data with
  | some ((d, h, m, sec), []) => some (d.getD 0, h.getD 0, m.getD 0, sec.getD 0)
  | _ => none

/-- One entry of the search response: the kind tag of the result id, the
video identifier, and the snippet title. -/
structure SearchItem where
  kind : String
  videoId : String
  title : String
deriving DecidableEq

/-- One entry of a batched detail response: the video identifier, the
contentDetails duration string and the statistics viewCount string, either of
which may be absent. -/
structure DetailItem where
  id : String
  duration : Option String
  viewCount : Option String
deriving DecidableEq

/-- The fixed denylist of get_youtube_search_result. -/
def PLAYLIST_KEYWORDS : List String :=
  ["playlist", "플레이리스트", "모음", "mix", "메들리", "medley", "연속듣기",
   "collection", "트로트"]

def MIN_DURATION_SEC : Nat := 180

def MAX_DURATION_SEC : Nat := 300

def MIN_VIEW_COUNT : Int := 10000

/-- True when the lowercased title contains one of the playlist keywords. -/
def containsAnyKeyword (title : String) : Bool :=
  PLAYLIST_KEYWORDS.any (fun k => containsSub k.data (lowerChars title.data))

/-- The Python int constructor on a string: an optional sign followed by a
nonempty digit run. -/
def pyParseInt (s : String) : Option Int :=
  match s.data with
  | '-' :: ds =>
    if ds ≠ [] ∧ ds.all Char.isDigit then some (-(digitsVal ds : Int)) else none
  | '+' :: ds =>
    if ds ≠ [] ∧ ds.all Char.isDigit then some (digitsVal ds) else none
  | ds =>
    if ds ≠ [] ∧ ds.all Char.isDigit then some (digitsVal ds) else none

/-- The per-item filter of get_youtube_search_result: both metadata fields
present and nonempty, duration inside the three-to-five-minute window, and a
view count that parses to at least the minimum.  An unparsable view count
drops the item without aborting. -/
def meetsCriteria (it : DetailItem) : Bool :=
  match it.duration, it.viewCount with
  | some ds, some vs =>
    if ds = "" ∨ vs = "" then false
    else
      let dur := parse_iso8601_duration ds
      if MIN_DURATION_SEC ≤ dur ∧ dur ≤ MAX_DURATION_SEC then
        match pyParseInt vs with
        | some v => decide (MIN_VIEW_COUNT ≤ v)
        | none => false
      else false
  | _, _ => false

/-- The keyword screen of get_youtube_search_result: the identifiers of the
search items whose id kind is video and whose lowercased title contains no
playlist keyword, in search-response order. -/
def potentialIds (items : List SearchItem) : List String :=
  (items.filter
    (fun it => it.kind == "youtube#video" && !containsAnyKeyword it.title)).map
    (·.videoId)

/-- Worker for chunkList: the fuel argument only bounds the recursion depth,
and one unit of fuel per list element is always enough because every step
consumes at least one element. -/
def chunkGo : Nat → List String → List (List String)
  | _, [] => []
  | 0, _ :: _ => []
  | fuel + 1, v :: rest => (v :: rest).take 50 :: chunkGo fuel ((v :: rest).drop 50)

/-- Partition into consecutive batches of at most 50 identifiers, mirroring
the range step of the source loop over potential video ids. -/
def chunkList (l : List String) : List (List String) := chunkGo l.length l

/-- The identifiers one batched detail call contributes: nothing when the
call raised a provider error, otherwise the ids of the response items that
pass the per-item filter, in response order. -/
def batchContribution (r : Except String (List DetailItem)) : List String :=
  match r with
  | .error _ => []
  | .ok ds => (ds.filter meetsCriteria).map (·.id)

/-- The batch loop of get_youtube_search_result: each batch is looked up and
its contribution appended; a failed batch contributes nothing and the loop
continues. -/
def collectBatches (detail : List String → Except String (List DetailItem)) :
    List (List String) → List String
  | [] => []
  | b :: bs => batchContribution (detail b) ++ collectBatches detail bs

/-- The external world of one get_youtube_search_result call: the configured
api key (absent or a string, the empty string being falsy), the outcome of
the search request, and the outcome of each batched detail request as a
function of the requested identifiers.  An error value stands for the message
the exception handler of the source formats from the raised error. -/
structure YTEnv where
  apiKey : Option String
  searchResp : Except String (List SearchItem)
  detailResp : List String → Except String (List DetailItem)

/-- Python truthiness of the api key argument: None and the empty string are
falsy. -/
def apiKeyFalsy : Option String → Bool
  | none => true
  | some s => s == ""

def noKeyMsg : String := "YouTube API 키가 설정되지 않았습니다."

def noCandidateMsg : String := "검색 결과에 플레이리스트가 아닌 비디오가 없습니다."

def noQualifiedMsg : String :=
  "검색 결과에 조건(3~5분, 1만뷰 이상, 단일 곡)에 맞는 비디오가 없습니다."

/-- Embedding of get_youtube_search_result from src/mymcp.py.  The first
component is the returned pair of video-id list and optional diagnostic; the
second component counts the provider HTTP calls the run performed (the search
request plus one request per detail batch). -/
def get_youtube_search_result (env : YTEnv) : (List String × Option String) × Nat :=
  if apiKeyFalsy env.apiKey then (([], some noKeyMsg), 0)
  else
    match env.searchResp with
    | .error e => (([], some e), 1)
    | .ok items =>
      match potentialIds items with
      | [] => (([], some noCandidateMsg), 1)
      | p :: ps =>
        match collectBatches env.detailResp (chunkList (p :: ps)) with
        | [] => (([], some noQualifiedMsg), 1 + (chunkList (p :: ps)).length)
        | v :: vs =>
          (((v :: vs).take 5, none), 1 + (chunkList (p :: ps)).length)

end MCPStudy

namespace MCPStudy

/-- C6: parse_iso8601_duration satisfies the five test vectors of the
specification: PT3M30S gives 210, PT5M gives 300, the empty string gives 0,
P0D gives 0, and PT1H2M3S gives 3723. -/
theorem C6_parser_test_vectors :
    parse_iso8601_duration "PT3M30S" = 210 ∧
    parse_iso8601_duration "PT5M" = 300 ∧
    parse_iso8601_duration "" = 0 ∧
    parse_iso8601_duration "P0D" = 0 ∧
    parse_iso8601_duration "PT1H2M3S" = 3723 := by
  decide

/-- C2, counterexample: the string P0DT1H2M3S matches the grammar
P[nD]T[nH][nM][nS] with components days 0, hours 1, minutes 2, seconds 3,
whose weighted sum is 3723, yet parse_iso8601_duration returns 0 because the
source short-circuits every string that starts with P0.  The claim that every
grammar-matching string is mapped to its component sum is therefore false. -/
theorem C2_p0_counterexample :
    specDurationComponents "P0DT1H2M3S" = some (0, 1, 2, 3) ∧
    (0 * 86400 + 1 * 3600 + 2 * 60 + 3 : Nat) = 3723 ∧
    parse_iso8601_duration "P0DT1H2M3S" = 0 ∧
    (0 : Nat) ≠ 3723 := by
  decide

/-- When the input is not short-circuited by the P0 test and the pattern
matches, parse_iso8601_duration returns the weighted component sum. -/
theorem parse_eq_of_core (s : String) (d h m sec : Option Nat) (rest : List Char)
    (hp0 : isPrefixChars ['P', '0'] s.data = false)
    (hcore : rxDurationCore s.data = some ((d, h, m, sec), rest)) :
    parse_iso8601_duration s =
      d.getD 0 * 86400 + h.getD 0 * 3600 + m.getD 0 * 60 + sec.getD 0 := by
  have hnnil : ¬ s.data = [] := by
    intro hnil
    rw [hnil] at hcore
    simp [rxDurationCore] at hcore
  unfold parse_iso8601_duration
  rw [if_neg hnnil, if_neg (by simp [hp0]), hcore]

/-- C2, amended: parse_iso8601_duration always returns a natural number; any
input the regex does not match returns 0, any input starting with P0 returns
0, and any input that matches the full grammar and does not start with P0 is
mapped to days times 86400 plus hours times 3600 plus minutes times 60 plus
seconds. -/
theorem C2_duration_formula_amended :
    (∀ s : String, rxDurationCore s.data = none → parse_iso8601_duration s = 0) ∧
    (∀ s : String, isPrefixChars ['P', '0'] s.data = true →
      parse_iso8601_duration s = 0) ∧
    (∀ (s : String) (d h m sec : Nat),
      isPrefixChars ['P', '0'] s.data = false →
      specDurationComponents s = some (d, h, m, sec) →
      parse_iso8601_duration s = d * 86400 + h * 3600 + m * 60 + sec) := by
  refine ⟨?_, ?_, ?_⟩
  · intro s hnone
    unfold parse_iso8601_duration
    split
    · rfl
    · split
      · rfl
      · rw [hnone]
  · intro s hp0
    unfold parse_iso8601_duration
    simp [hp0]
  · intro s d h m sec hp0 hspec
    unfold specDurationComponents at hspec
    split at hspec
    · rename_i g hcore
      simp only [Option.some.injEq, Prod.mk.injEq] at hspec
      obtain ⟨h1, h2, h3, h4⟩ := hspec
      rw [parse_eq_of_core s _ _ _ _ [] hp0 hcore, h1, h2, h3, h4]
    · exact absurd hspec (by simp)

/-- C2, witness: the amended theorem applied at concrete inputs, one for each
conjunct. -/
theorem C2_duration_formula_witness :
    parse_iso8601_duration "hello" = 0 ∧
    parse_iso8601_duration "P0D" = 0 ∧
    parse_iso8601_duration "PT3M30S" = 0 * 86400 + 0 * 3600 + 3 * 60 + 30 :=
  ⟨C2_duration_formula_amended.1 "hello" (by decide),
   C2_duration_formula_amended.2.1 "P0D" (by decide),
   C2_duration_formula_amended.2.2 "PT3M30S" 0 0 3 30 (by decide) (by decide)⟩

/-- C3: whatever the credential and whatever the provider responses, the
embedded get_youtube_search_result produces a pair of identifier list and
optional diagnostic, and the diagnostic is present exactly when the list is
empty.  Every failing provider call in the source is caught and converted
into such a pair, which the model reflects by being a total function into
this type. -/
theorem C3_diagnostic_iff_empty (env : YTEnv) :
    (get_youtube_search_result env).1.1 = [] ↔
      ((get_youtube_search_result env).1.2).isSome = true := by
  unfold get_youtube_search_result
  split
  · simp
  · split
    · simp
    · split
      · simp
      · split
        · simp
        · rename_i v vs hcol
          have ht : (v :: vs).take 5 = v :: vs.take 4 := rfl
          simp [ht]

/-- The environment of the C4 truncation scenario: eight qualifying search
results in provider order a..h, every one passing every filter. -/
def envC4 : YTEnv :=
  { apiKey := some "k"
  , searchResp :=
      .ok (["a", "b", "c", "d", "e", "f", "g", "h"].map
        (fun s => ⟨"youtube#video", s, "song"⟩))
  , detailResp := fun b =>
      .ok (b.map (fun i => ⟨i, some "PT4M", some "20000"⟩)) }

/-- C4: the identifier list returned by get_youtube_search_result never has
more than 5 entries, and in the concrete scenario with eight qualifying
candidates in provider order a..h the output is exactly the first five, in
order. -/
theorem C4_output_capped_at_five :
    (∀ env : YTEnv, ((get_youtube_search_result env).1.1).length ≤ 5) ∧
    (get_youtube_search_result envC4).1.1 = ["a", "b", "c", "d", "e"] := by
  constructor
  · intro env
    unfold get_youtube_search_result
    split
    · simp
    · split
      · simp
      · split
        · simp
        · split
          · simp
          · simp [List.length_take]
  · decide

/-- C7: when the api key is falsy (unset or empty), get_youtube_search_result
returns the empty identifier list with the missing-credential diagnostic and
performs zero provider calls; the diagnostic text mentions the API key. -/
theorem C7_missing_credential_fails_fast (env : YTEnv)
    (h : apiKeyFalsy env.apiKey = true) :
    get_youtube_search_result env = (([], some noKeyMsg), 0) ∧
    containsSub "API 키".data noKeyMsg.data = true := by
  constructor
  · unfold get_youtube_search_result
    rw [if_pos h]
  · decide

/-- The environment of the C7 witness: no configured credential. -/
def envC7 : YTEnv :=
  { apiKey := none
  , searchResp := .ok []
  , detailResp := fun _ => .ok [] }

/-- C7, witness: the fail-fast theorem applied to a concrete environment with
an absent credential. -/
theorem C7_missing_credential_witness :
    get_youtube_search_result envC7 = (([], some noKeyMsg), 0) ∧
    containsSub "API 키".data noKeyMsg.data = true :=
  C7_missing_credential_fails_fast envC7 (by decide)

/-- Concatenating the batches gives back the original list, provided the fuel
covers the length. -/
theorem chunkGo_flatten (fuel : Nat) :
    ∀ l : List String, l.length ≤ fuel → (chunkGo fuel l).flatten = l := by
  induction fuel with
  | zero =>
    intro l hl
    cases l with
    | nil => rfl
    | cons v rest => simp at hl
  | succ fuel ih =>
    intro l hl
    cases l with
    | nil => rfl
    | cons v rest =>
      simp only [chunkGo, List.flatten]
      rw [ih]
      · exact List.take_append_drop 50 (v :: rest)
      · simp only [List.length_drop, List.length_cons]
        simp only [List.length_cons] at hl
        omega

/-- Concatenating the batches of chunkList gives back the original list. -/
theorem chunkList_flatten (l : List String) : (chunkList l).flatten = l :=
  chunkGo_flatten l.length l le_rfl

/-- Every element of a batch is an element of the partitioned list. -/
theorem mem_of_mem_chunkList (l b : List String) (hb : b ∈ chunkList l)
    (x : String) (hx : x ∈ b) : x ∈ l := by
  rw [← chunkList_flatten l]
  exact List.mem_flatten.mpr ⟨b, hb, hx⟩

/-- Every identifier collected by the batch loop comes from a successful
detail response whose item passes the per-item filter. -/
theorem mem_collectBatches
    (detail : List String → Except String (List DetailItem)) (v : String) :
    ∀ bs : List (List String), v ∈ collectBatches detail bs →
      ∃ b ∈ bs, ∃ ds, detail b = .ok ds ∧
        ∃ it ∈ ds, it.id = v ∧ meetsCriteria it = true := by
  intro bs
  induction bs with
  | nil => intro h; cases h
  | cons b bs ih =>
    intro hv
    simp only [collectBatches, List.mem_append] at hv
    cases hv with
    | inl hv =>
      refine ⟨b, List.mem_cons_self _ _, ?_⟩
      cases hdet : detail b with
      | error e =>
        rw [hdet] at hv
        simp [batchContribution] at hv
      | ok ds =>
        rw [hdet] at hv
        simp only [batchContribution, List.mem_map] at hv
        obtain ⟨it, hit, hid⟩ := hv
        rw [List.mem_filter] at hit
        exact ⟨ds, rfl, it, hit.1, hid, hit.2⟩
    | inr hv =>
      obtain ⟨b2, hb2, rest⟩ := ih hv
      exact ⟨b2, List.mem_cons_of_mem _ hb2, rest⟩

/-- When every successful detail response lists only requested identifiers in
request order, the collected identifiers form a sublist of the concatenated
batches. -/
theorem collectBatches_sublist
    (detail : List String → Except String (List DetailItem)) :
    ∀ bs : List (List String),
      (∀ b ∈ bs, ∀ ds, detail b = .ok ds → List.Sublist (ds.map (·.id)) b) →
      List.Sublist (collectBatches detail bs) bs.flatten := by
  intro bs
  induction bs with
  | nil => intro _; exact List.Sublist.refl []
  | cons b bs ih =>
    intro hwf
    simp only [collectBatches, List.flatten]
    refine List.Sublist.append ?_ (ih ?_)
    · cases hdet : detail b with
      | error e => simp [batchContribution]
      | ok ds =>
        have h1 : List.Sublist ((ds.filter meetsCriteria).map (·.id)) (ds.map (·.id)) :=
          List.Sublist.map _ (List.filter_sublist ds)
        have h2 := h1.trans (hwf b (List.mem_cons_self _ _) ds hdet)
        simpa [batchContribution] using h2
    · intro b2 hb2 ds hds
      exact hwf b2 (List.mem_cons_of_mem _ hb2) ds hds

/-- The environment of the C1 counterexample: the first search result is
playlist-like and is screened out, so only the second identifier is requested
from the detail endpoint, but the detail response nevertheless reports both
identifiers. -/
def envC1 : YTEnv :=
  { apiKey := some "k"
  , searchResp := .ok [⟨"youtube#video", "a", "Playlist Song"⟩,
                       ⟨"youtube#video", "b", "good song"⟩]
  , detailResp := fun _ => .ok [⟨"a", some "PT4M", some "20000"⟩,
                                ⟨"b", some "PT4M", some "20000"⟩] }

/-- C1, counterexample: quantified over every detail-provider response, the
claim fails.  In envC1 the identifier a is dropped by the keyword screen
because its title Playlist Song contains the keyword playlist, so the
candidate list is just b; yet the detail response lists an item with id a,
the code appends response ids without checking them against the request, and
a ends up in the output even though its title failed the denylist filter. -/
theorem C1_keyword_filter_counterexample :
    potentialIds [⟨"youtube#video", "a", "Playlist Song"⟩,
                  ⟨"youtube#video", "b", "good song"⟩] = ["b"] ∧
    containsAnyKeyword "Playlist Song" = true ∧
    (get_youtube_search_result envC1).1.1 = ["a", "b"] := by
  decide

/-- C1, amended: provided every successful detail response reports only
identifiers that were requested in its batch, every identifier in the output
of get_youtube_search_result comes from a search item of video kind whose
title passed the keyword screen, and from a detail item that passed the
duration and view-count filter; moreover the numeric bounds of that filter
are inclusive: durations of exactly 180 and 300 seconds and a view count of
exactly 10000 pass, durations of 179 or 301 seconds and a view count of
9999 fail. -/
theorem C1_filters_hold_for_consistent_details :
    (∀ (env : YTEnv) (items : List SearchItem),
      env.searchResp = .ok items →
      (∀ b ∈ chunkList (potentialIds items),
        ∀ ds, env.detailResp b = .ok ds → ∀ it ∈ ds, it.id ∈ b) →
      ∀ v ∈ (get_youtube_search_result env).1.1,
        (∃ si ∈ items, si.videoId = v ∧ si.kind = "youtube#video" ∧
          containsAnyKeyword si.title = false) ∧
        (∃ b ∈ chunkList (potentialIds items), ∃ ds,
          env.detailResp b = .ok ds ∧
          ∃ it ∈ ds, it.id = v ∧ meetsCriteria it = true)) ∧
    (meetsCriteria ⟨"x", some "PT3M", some "10000"⟩ = true ∧
     meetsCriteria ⟨"x", some "PT5M", some "10000"⟩ = true ∧
     meetsCriteria ⟨"x", some "PT2M59S", some "10000"⟩ = false ∧
     meetsCriteria ⟨"x", some "PT5M1S", some "10000"⟩ = false ∧
     meetsCriteria ⟨"x", some "PT4M", some "9999"⟩ = false) := by
  constructor
  · intro env items hsearch hwf v hv
    unfold get_youtube_search_result at hv
    split at hv
    · simp at hv
    · simp only [hsearch] at hv
      cases hpot : potentialIds items with
      | nil => simp only [hpot] at hv; simp at hv
      | cons p ps =>
        simp only [hpot] at hv
        cases hcol : collectBatches env.detailResp (chunkList (p :: ps)) with
        | nil => simp only [hcol] at hv; simp at hv
        | cons v1 vs =>
          simp only [hcol] at hv
          have hvfin : v ∈ collectBatches env.detailResp (chunkList (p :: ps)) := by
            rw [hcol]
            exact List.take_subset 5 _ hv
          obtain ⟨b, hb, ds, hds, it, hit, hid, hq⟩ :=
            mem_collectBatches env.detailResp v _ hvfin
          have hbpot : b ∈ chunkList (potentialIds items) := by
            rw [hpot]; exact hb
          have hvb : v ∈ b := hid ▸ hwf b hbpot ds hds it hit
          have hvpot : v ∈ potentialIds items := by
            rw [hpot]
            exact mem_of_mem_chunkList _ b hb v hvb
          unfold potentialIds at hvpot
          simp only [List.mem_map] at hvpot
          obtain ⟨si, hsif, hsiv⟩ := hvpot
          rw [List.mem_filter] at hsif
          obtain ⟨hsimem, hsip⟩ := hsif
          simp only [Bool.and_eq_true, beq_iff_eq, Bool.not_eq_true'] at hsip
          exact ⟨⟨si, hsimem, hsiv, hsip.1, hsip.2⟩,
                 b, hb, ds, hds, it, hit, hid, hq⟩
  · decide

/-- The environment of the C1 witness: one clean candidate and a detail
response that reports exactly the requested identifier. -/
def envC1W : YTEnv :=
  { apiKey := some "k"
  , searchResp := .ok [⟨"youtube#video", "b", "good song"⟩]
  , detailResp := fun _ => .ok [⟨"b", some "PT4M", some "20000"⟩] }

/-- C1, witness: the amended theorem applied to envC1W at identifier b. -/
theorem C1_filters_witness :
    (∃ si ∈ [(⟨"youtube#video", "b", "good song"⟩ : SearchItem)],
      si.videoId = "b" ∧ si.kind = "youtube#video" ∧
      containsAnyKeyword si.title = false) ∧
    (∃ b ∈ chunkList (potentialIds [⟨"youtube#video", "b", "good song"⟩]),
      ∃ ds, envC1W.detailResp b = .ok ds ∧
      ∃ it ∈ ds, it.id = "b" ∧ meetsCriteria it = true) :=
  C1_filters_hold_for_consistent_details.1 envC1W
    [⟨"youtube#video", "b", "good song"⟩] rfl
    (by
      intro b hb ds hds it hit
      have hcl : chunkList
          (potentialIds [⟨"youtube#video", "b", "good song"⟩]) = [["b"]] := by
        decide
      rw [hcl] at hb
      have hb2 : b = ["b"] := by simpa using hb
      subst hb2
      have hds2 : ds = [⟨"b", some "PT4M", some "20000"⟩] := by
        injection hds with h
        exact h.symm
      subst hds2
      have hit2 : it = ⟨"b", some "PT4M", some "20000"⟩ := by simpa using hit
      subst hit2
      decide)
    "b" (by decide)

/-- The environment of the C5 counterexample: two clean candidates a and b in
search order, whose batched detail lookup returns its items in the opposite
order. -/
def envC5 : YTEnv :=
  { apiKey := some "k"
  , searchResp := .ok [⟨"youtube#video", "a", "song a"⟩,
                       ⟨"youtube#video", "b", "song b"⟩]
  , detailResp := fun _ => .ok [⟨"b", some "PT4M", some "20000"⟩,
                                ⟨"a", some "PT4M", some "20000"⟩] }

/-- C5, counterexample: the output order follows the order of the detail
response, not the search order.  In envC5 the search provider returns a
before b, both qualify, but the detail response lists b first and the output
is b then a, which is not a sublist of the search order a then b.  The claim
that search order is preserved regardless of the detail-response order is
therefore false. -/
theorem C5_order_counterexample :
    potentialIds [⟨"youtube#video", "a", "song a"⟩,
                  ⟨"youtube#video", "b", "song b"⟩] = ["a", "b"] ∧
    (get_youtube_search_result envC5).1.1 = ["b", "a"] ∧
    ¬ List.Sublist ["b", "a"] ["a", "b"] := by
  decide

/-- C5, amended: when every successful detail response lists its items in the
order in which its batch requested them (a sublist of the batch), the output
of get_youtube_search_result is a sublist of the identifiers of the search
response, so the relative search order is preserved. -/
theorem C5_order_preserved_for_ordered_details (env : YTEnv)
    (items : List SearchItem) (hsearch : env.searchResp = .ok items)
    (hresp : ∀ b ∈ chunkList (potentialIds items),
      ∀ ds, env.detailResp b = .ok ds → List.Sublist (ds.map (·.id)) b) :
    List.Sublist (get_youtube_search_result env).1.1
      (items.map (·.videoId)) := by
  unfold get_youtube_search_result
  split
  · exact List.nil_sublist _
  · simp only [hsearch]
    cases hpot : potentialIds items with
    | nil => exact List.nil_sublist _
    | cons p ps =>
      cases hcol : collectBatches env.detailResp (chunkList (p :: ps)) with
      | nil =>
        simp only [hcol]
        exact List.nil_sublist _
      | cons v vs =>
        simp only [hcol]
        have h1 : List.Sublist ((v :: vs).take 5) (v :: vs) :=
          List.take_sublist 5 _
        have h2 : List.Sublist (collectBatches env.detailResp (chunkList (p :: ps)))
            ((chunkList (p :: ps)).flatten) := by
          apply collectBatches_sublist
          intro b hb ds hds
          exact hresp b (by rw [hpot]; exact hb) ds hds
        rw [hcol, chunkList_flatten] at h2
        have h4 : List.Sublist (p :: ps) (items.map (·.videoId)) := by
          rw [← hpot]
          unfold potentialIds
          exact List.Sublist.map _ (List.filter_sublist items)
        exact h1.trans (h2.trans h4)

/-- The environment of the C5 witness: the detail endpoint echoes each
requested batch in request order. -/
def envC5W : YTEnv :=
  { apiKey := some "k"
  , searchResp := .ok [⟨"youtube#video", "a", "song a"⟩,
                       ⟨"youtube#video", "b", "song b"⟩]
  , detailResp := fun b =>
      .ok (b.map (fun i => ⟨i, some "PT4M", some "20000"⟩)) }

/-- C5, witness: the amended theorem applied to envC5W. -/
theorem C5_order_witness :
    List.Sublist (get_youtube_search_result envC5W).1.1
      (([⟨"youtube#video", "a", "song a"⟩,
         ⟨"youtube#video", "b", "song b"⟩] : List SearchItem).map (·.videoId)) :=
  C5_order_preserved_for_ordered_details envC5W _ rfl
    (by
      intro b hb ds hds
      have hds2 : ds = b.map (fun i => ⟨i, some "PT4M", some "20000"⟩) := by
        injection hds with h
        exact h.symm
      subst hds2
      simp only [List.map_map]
      have h : ((fun it : DetailItem => it.id) ∘
          fun i => (⟨i, some "PT4M", some "20000"⟩ : DetailItem)) =
            fun i => i := rfl
      rw [h, List.map_id'])

/-- C8: with the surviving candidates split into exactly two batches, a
successful first batch and a provider error on the second, the returned
identifier list is exactly the first five qualifying identifiers of the first
batch: the failed batch is skipped without aborting, and the successful batch
still contributes its candidates. -/
theorem C8_failed_batch_skipped (env : YTEnv) (items : List SearchItem)
    (b1 b2 : List String) (r1 : List DetailItem) (e : String)
    (hkey : apiKeyFalsy env.apiKey = false)
    (hsearch : env.searchResp = .ok items)
    (hchunk : chunkList (potentialIds items) = [b1, b2])
    (hd1 : env.detailResp b1 = .ok r1)
    (hd2 : env.detailResp b2 = .error e) :
    (get_youtube_search_result env).1.1 =
      ((r1.filter meetsCriteria).map (·.id)).take 5 := by
  unfold get_youtube_search_result
  rw [if_neg (by simp [hkey])]
  simp only [hsearch]
  cases hpot : potentialIds items with
  | nil =>
    rw [hpot] at hchunk
    simp [chunkList, chunkGo] at hchunk
  | cons p ps =>
    rw [hpot] at hchunk
    have hfinal : collectBatches env.detailResp (chunkList (p :: ps)) =
        (r1.filter meetsCriteria).map (·.id) := by
      rw [hchunk]
      simp only [collectBatches, batchContribution, hd1, hd2, List.append_nil]
    simp only [hfinal]
    cases hq : (r1.filter meetsCriteria).map (·.id) with
    | nil => simp
    | cons v vs => rfl

/-- The candidate identifiers of the C8 witness scenario: 51 of them, so the
detail lookup needs two batches. -/
def idsC8 : List String := (List.range 51).map (fun i => "v" ++ toString i)

/-- The 51 search items of the C8 witness scenario, all clean titles. -/
def itemsC8 : List SearchItem :=
  idsC8.map (fun s => ⟨"youtube#video", s, "song"⟩)

/-- The environment of the C8 witness: the detail endpoint answers the
50-element first batch and raises a quota error on the 1-element second
batch. -/
def envC8 : YTEnv :=
  { apiKey := some "k"
  , searchResp := .ok itemsC8
  , detailResp := fun b =>
      if b.length = 50 then
        .ok (b.map (fun i => ⟨i, some "PT4M", some "20000"⟩))
      else .error "quota" }

/-- C8, witness: the batch-skipping theorem applied to the concrete
two-batch environment envC8. -/
theorem C8_failed_batch_witness :
    (get_youtube_search_result envC8).1.1 =
      ((((idsC8.take 50).map
          (fun i => (⟨i, some "PT4M", some "20000"⟩ : DetailItem))).filter
            meetsCriteria).map (·.id)).take 5 :=
  C8_failed_batch_skipped envC8 itemsC8 (idsC8.take 50) (idsC8.drop 50)
    ((idsC8.take 50).map (fun i => ⟨i, some "PT4M", some "20000"⟩)) "quota"
    rfl rfl (by decide) rfl rfl

/-- One spreadsheet row, as an association from column name to cell value;
none models a NaN cell. -/
abbrev XRow := List (String × Option String)

/-- A loaded spreadsheet: the column names of the frame and its rows. -/
structure Xlsx where
  cols : List String
  rows : List XRow
deriving DecidableEq

/-- Cell of a row under a column name; a missing association also models a
NaN cell. -/
def getCell (r : XRow) (c : String) : Option String :=
  match r.find? (fun p => p.1 == c) with
  | some p => p.2
  | none => none

/-- Python str.strip: whitespace removed from both ends. -/
def pyStrip (s : String) : String :=
  String.mk
    (((s.data.dropWhile Char.isWhitespace).reverse.dropWhile
      Char.isWhitespace).reverse)

/-- The null-or-blank test of the source filter on the internal-bug-db
column: the cell is NaN, or its stripped text is empty. -/
def isNullOrBlank (o : Option String) : Bool :=
  match o with
  | none => true
  | some s => pyStrip s == ""

/-- The row filter shared by both versions of find_ng_items_without_bug_id:
the test-result cell equals NG and the internal-bug-db cell is null or
blank. -/
def ngFilterRow (r : XRow) : Bool :=
  (getCell r "시험결과" == some "NG") && isNullOrBlank (getCell r "내부버그DB")

namespace mymcp

/-- The required columns of the Korean find_ng_items_without_bug_id. -/
def required_columns : List String := ["시험항목ID", "시험결과", "내부버그DB"]

/-- Embedding of find_ng_items_without_bug_id from src/mymcp.py: after the
required-column check, the rows whose test result is NG and whose
internal-bug-db cell is null or blank are kept and their non-null item ids
returned in row order. -/
def find_ng_items_without_bug_id (t : Xlsx) : List String :=
  match required_columns.find? (fun c => !(t.cols.contains c)) with
  | some c => ["❌ \x27" ++ c ++ "\x27 컬럼이 존재하지 않습니다. 확인해주세요."]
  | none =>
    (t.rows.filter ngFilterRow).filterMap (fun r => getCell r "시험항목ID")

end mymcp

namespace mymcpJp

/-- The required columns of the Japanese find_ng_items_without_bug_id; the
first entry differs from the Korean version and from every column the filter
actually reads. -/
def required_columns : List String := ["試ｄID", "시험결과", "내부버그DB"]

/-- The value the Japanese version returns when pandas raises a KeyError on
the item-id column after its required-column check passed; the embedded text
abbreviates the Python exception rendering. -/
def keyErrorResult : List String := ["❌ エラー発生: \x27시험항목ID\x27"]

/-- Embedding of find_ng_items_without_bug_id from src/mymcpJp.py: same
filter as the Korean version, but the required-column check demands the
column 試ｄID, and the item-id column itself is not part of that check, so
its absence surfaces as the caught KeyError value instead. -/
def find_ng_items_without_bug_id (t : Xlsx) : List String :=
  match required_columns.find? (fun c => !(t.cols.contains c)) with
  | some c => ["❌ \x27" ++ c ++ "\x27 カラムが存在しません。確認してください。"]
  | none =>
    if t.cols.contains "시험항목ID" then
      (t.rows.filter ngFilterRow).filterMap (fun r => getCell r "시험항목ID")
    else keyErrorResult

end mymcpJp

/-- The spreadsheet of the C9 counterexample: the standard Korean schema with
one NG row lacking a bug id. -/
def xlsxC9 : Xlsx :=
  { cols := ["시험항목ID", "확인내용", "시험순서", "기대결과", "시험결과",
             "이용단말", "어플리케이션 버전", "비고", "내부버그DB"]
  , rows := [[("시험항목ID", some "T1"), ("시험결과", some "NG"),
              ("내부버그DB", none)]] }

/-- C9, counterexample: on a spreadsheet with the Korean schema, the Korean
version returns the data list with the qualifying id T1, while the Japanese
version rejects the file outright because its required-column check demands
the column 試ｄID, which the schema does not have.  One call succeeds with
data and the other fails with a column error, so the two versions are not
behaviorally equivalent up to message wording. -/
theorem C9_equivalence_counterexample :
    mymcp.find_ng_items_without_bug_id xlsxC9 = ["T1"] ∧
    mymcpJp.find_ng_items_without_bug_id xlsxC9 =
      ["❌ \x27試ｄID\x27 カラムが存在しません。確認してください。"] := by
  decide

/-- C9, amended: the two versions of find_ng_items_without_bug_id share the
same row filter and agree exactly on every spreadsheet that contains the
required columns of both versions, in particular the extra Japanese column
試ｄID; on such tables both return the identical list of qualifying item
ids.  Full behavioral equivalence of the two files fails, as the
counterexample shows. -/
theorem C9_find_ng_agree_amended (t : Xlsx)
    (hkr : ∀ c ∈ mymcp.required_columns, t.cols.contains c = true)
    (hjp : t.cols.contains "試ｄID" = true) :
    mymcp.find_ng_items_without_bug_id t =
      mymcpJp.find_ng_items_without_bug_id t := by
  have hkr2 : mymcp.required_columns.find?
      (fun c => !(t.cols.contains c)) = none := by
    rw [List.find?_eq_none]
    intro c hc
    simpa using hkr c hc
  have hjp2 : mymcpJp.required_columns.find?
      (fun c => !(t.cols.contains c)) = none := by
    rw [List.find?_eq_none]
    intro c hc
    have hc2 : c = "試ｄID" ∨ c ∈ mymcp.required_columns := by
      simp only [mymcpJp.required_columns, mymcp.required_columns] at hc ⊢
      simp at hc
      rcases hc with h | h | h
      · exact Or.inl h
      · exact Or.inr (by simp [h])
      · exact Or.inr (by simp [h])
    rcases hc2 with h | h
    · subst h
      simpa using hjp
    · simpa using hkr c h
  have hid : "시험항목ID" ∈ t.cols := by
    simpa using hkr "시험항목ID" (by simp [mymcp.required_columns])
  unfold mymcp.find_ng_items_without_bug_id
  unfold mymcpJp.find_ng_items_without_bug_id
  rw [hkr2, hjp2]
  simp [hid]

/-- The spreadsheet of the C9 witness: the Korean schema plus the extra
Japanese required column. -/
def xlsxC9W : Xlsx :=
  { cols := ["시험항목ID", "확인내용", "시험순서", "기대결과", "시험결과",
             "이용단말", "어플리케이션 버전", "비고", "내부버그DB", "試ｄID"]
  , rows := [[("시험항목ID", some "T1"), ("시험결과", some "NG"),
              ("내부버그DB", none)]] }

/-- C9, witness: the agreement theorem applied to a concrete spreadsheet that
carries the required columns of both versions. -/
theorem C9_find_ng_agree_witness :
    mymcp.find_ng_items_without_bug_id xlsxC9W =
      mymcpJp.find_ng_items_without_bug_id xlsxC9W :=
  C9_find_ng_agree_amended xlsxC9W (by decide) (by decide)

namespace mymcp

/-- The allowed status values of both source files. -/
def ALLOWED_STATUS_VALUES : List String := ["NY", "NG", "BK", "QA", "OK", "진행중"]

/-- The properties payload add_notion_page submits: the four mandatory
fields and the optional assignee. -/
structure NotionProperties where
  title : String
  text : String
  date : String
  status : String
  assignee : Option String
deriving DecidableEq

/-- Outcome of the HTTP post to the Notion endpoint, as the source
distinguishes it: success, an HTTP status error, or a transport error. -/
inductive NotionPostResult where
  | success
  | httpError (code : Nat) (detail : String)
  | transportError (detail : String)

/-- Embedding of add_notion_page from src/mymcp.py (the Japanese file has the
same logic with different message text).  The first component is the returned
message; the second is the properties payload that was posted, or none when
no HTTP request was made.  A missing status defaults to NY; a status outside
the allowed list returns the failure message before any request. -/
def add_notion_page (title text date : String) (status assignee : Option String)
    (post : NotionProperties → NotionPostResult) : String × Option NotionProperties :=
  let final_state := match status with
    | some s => s
    | none => "NY"
  if !(ALLOWED_STATUS_VALUES.contains final_state) then
    ("❌ 추가 실패! \x27상태\x27 값은 " ++ String.intercalate ", " ALLOWED_STATUS_VALUES ++
      " 중 하나여야 합니다. 입력값: " ++ final_state, none)
  else
    let payload : NotionProperties := ⟨title, text, date, final_state, assignee⟩
    match post payload with
    | .success =>
      let assigneeMsg := match assignee with
        | some a => "담당자: " ++ a
        | none => "담당자 미지정"
      ("✅ 등록 성공! (상태: " ++ final_state ++ ", " ++ assigneeMsg ++ ")",
        some payload)
    | .httpError code detail =>
      ("❌ 추가 실패! 상태 코드 " ++ toString code ++ ". 이유: " ++ detail,
        some payload)
    | .transportError detail =>
      ("❌ 추가 실패! 네트워크 오류: " ++ detail, some payload)

end mymcp

/-- C10: add_notion_page validates its status before any network call.  A
missing status posts the payload with status NY; a status outside the allowed
list yields the failure message and posts nothing, whatever the endpoint
would have answered. -/
theorem C10_status_validation :
    (∀ (title text date : String) (assignee : Option String)
      (post : mymcp.NotionProperties → mymcp.NotionPostResult),
      (mymcp.add_notion_page title text date none assignee post).2 =
        some ⟨title, text, date, "NY", assignee⟩) ∧
    (∀ (title text date s : String) (assignee : Option String)
      (post : mymcp.NotionProperties → mymcp.NotionPostResult),
      mymcp.ALLOWED_STATUS_VALUES.contains s = false →
      (mymcp.add_notion_page title text date (some s) assignee post).2 = none ∧
      (mymcp.add_notion_page title text date (some s) assignee post).1 =
        "❌ 추가 실패! \x27상태\x27 값은 NY, NG, BK, QA, OK, 진행중 중 하나여야 합니다. 입력값: "
          ++ s) := by
  constructor
  · intro title text date assignee post
    unfold mymcp.add_notion_page
    rw [if_neg (by decide)]
    cases hpost : post ⟨title, text, date, "NY", assignee⟩ with
    | success => simp [hpost]
    | httpError code detail => simp [hpost]
    | transportError detail => simp [hpost]
  · intro title text date s assignee post hs
    unfold mymcp.add_notion_page
    rw [if_pos (by simpa using hs)]
    constructor
    · rfl
    · rfl

/-- C10, witness: the validation theorem applied at concrete arguments, with
the rejected status ZZ. -/
theorem C10_status_validation_witness :
    (mymcp.add_notion_page "t" "x" "2025-01-01" none none
      (fun _ => .success)).2 = some ⟨"t", "x", "2025-01-01", "NY", none⟩ ∧
    (mymcp.add_notion_page "t" "x" "2025-01-01" (some "ZZ") none
      (fun _ => .success)).2 = none ∧
    (mymcp.add_notion_page "t" "x" "2025-01-01" (some "ZZ") none
      (fun _ => .success)).1 =
      "❌ 추가 실패! \x27상태\x27 값은 NY, NG, BK, QA, OK, 진행중 중 하나여야 합니다. 입력값: "
        ++ "ZZ" :=
  ⟨C10_status_validation.1 "t" "x" "2025-01-01" none (fun _ => .success),
   (C10_status_validation.2 "t" "x" "2025-01-01" "ZZ" none
     (fun _ => .success) (by decide)).1,
   (C10_status_validation.2 "t" "x" "2025-01-01" "ZZ" none
     (fun _ => .success) (by decide)).2⟩

end MCPStudy
